import Mathlib

/-!
Verification of the aihome ESP32 sensor-node sketch.

The development shallowly embeds the core of the repository (newest
revision, `src/unnamed/part_000`; the other files are earlier revisions of
the same sketch): the non-blocking interval timer `NonblockingDelayer`,
the gas-sensor facade `Sensor_ZE08_CH2O`, the MQTT connect/push path of
`Websocket_manager`, and the WebSocket protocol handler
`Websocket_manager::handle_websocket_message`.

Modelling conventions:
* `unsigned long` (32-bit on ESP32) becomes `Nat` with explicit `% 2^32`
  where overflow matters; `ULONG_MAX = 2^32 - 1`.
* `millis()` and every other environment read (WiFi status, MQTT client
  state, sensor transducer values, JSON parse results) are inputs passed
  explicitly to the embedded functions.
* C `float` values become `FloatVal`: either NaN or an exact rational;
  `isnan` is the NaN test used by the code.
* Side effects (MQTT publishes, WebSocket sends, sensor reads) become
  explicit components of the result values.
-/

/-- 32-bit `ULONG_MAX`, the sentinel used by `NonblockingDelayer` for an
unset baseline. -/
def ULONG_MAX : Nat := 2 ^ 32 - 1

/-- Wraparound-safe unsigned 32-bit subtraction `a - b` as computed by C
on `unsigned long` operands (both `< 2^32`). -/
def usub32 (a b : Nat) : Nat := (a + 2 ^ 32 - b) % 2 ^ 32

/-- A C `float` value: NaN or an exact numeric value (rationals stand in
for the representable numbers). -/
inductive FloatVal where
  | nan : FloatVal
  | val : ℚ → FloatVal
deriving DecidableEq

/-- The `isnan` test applied by the code to sensor readings. -/
def FloatVal.isnan : FloatVal → Bool
  | .nan => true
  | .val _ => false

/-- Numeric content of a non-NaN `FloatVal` (0 for NaN; only used on
values already checked with `isnan`). -/
def FloatVal.toRat : FloatVal → ℚ
  | .nan => 0
  | .val q => q

/-- State of `NonblockingDelayer`: the single member `lastUpdate`.
The constructor initialises it to `ULONG_MAX` ("unset"). -/
structure NonblockingDelayer where
  lastUpdate : Nat
deriving DecidableEq

/-- `NonblockingDelayer()` constructor: `lastUpdate(ULONG_MAX)`. -/
def NonblockingDelayer.init : NonblockingDelayer := ⟨ULONG_MAX⟩

/-- `NonblockingDelayer::is_expired_when_delay(ms)`. `now` is the value
returned by `millis()` during the call. Returns the `bool` result and the
updated state. Mirrors the source: if `lastUpdate == ULONG_MAX`, record
`now` and return false; else if `now - lastUpdate >= ms` (unsigned
32-bit subtraction), record `now` and return true; else return false
with the state unchanged. -/
def NonblockingDelayer.is_expired_when_delay
    (s : NonblockingDelayer) (ms now : Nat) : Bool × NonblockingDelayer :=
  if s.lastUpdate = ULONG_MAX then
    (false, ⟨now⟩)
  else if usub32 now s.lastUpdate ≥ ms then
    (true, ⟨now⟩)
  else
    (false, s)

/-- Result of `Sensor_ZE08_CH2O::read` / `readUntil`: the
`std::pair<bool, std::pair<uint16_t, float>>` of (success, ppb, mgm3). -/
structure Ch2oResult where
  success : Bool
  ppb : Nat
  mgm3 : ℚ
deriving DecidableEq

/-- `Sensor_ZE08_CH2O::ppb_to_mgm3`: `return ppb * 0.00125;`. -/
def Sensor_ZE08_CH2O.ppb_to_mgm3 (ppb : Nat) : ℚ := ppb * (0.00125 : ℚ)

/-- `Sensor_ZE08_CH2O::read`. `wzFrame` is the environment's answer to
`wz.read(hcho_data)`: `some ppb` when a frame is available (with its
`HCHO_PPB` field), `none` otherwise. In passive mode the code first
issues `wz.requestRead()`, a side effect on the external driver that
does not change the returned value, so the mode is not modelled. -/
def Sensor_ZE08_CH2O.read (wzFrame : Option Nat) : Ch2oResult :=
  match wzFrame with
  | some ppb => ⟨true, ppb, Sensor_ZE08_CH2O.ppb_to_mgm3 ppb⟩
  | none => ⟨false, 0, 0⟩

/-- `Sensor_ZE08_CH2O::readUntil(timeout)`: identical value behaviour to
`read`, with `wzFrame` now the environment's answer to
`wz.readUntil(hcho_data, timeout)` (`none` when the timeout elapsed
without a frame). -/
def Sensor_ZE08_CH2O.readUntil (wzFrame : Option Nat) (timeout : Nat) : Ch2oResult :=
  match timeout, wzFrame with
  | _, some ppb => ⟨true, ppb, Sensor_ZE08_CH2O.ppb_to_mgm3 ppb⟩
  | _, none => ⟨false, 0, 0⟩

/-- C1 counterexample: arm the timer at time `2^32 - 1` (so the recorded
baseline collides with the `ULONG_MAX` sentinel), then call again at
time 5 with interval 3. The wraparound elapsed time is 6 ≥ 3, so the
claim predicts true, but the code re-arms and returns false. -/
theorem C1_counterexample :
    ((NonblockingDelayer.init.is_expired_when_delay 3 (2 ^ 32 - 1)).2.is_expired_when_delay
        3 5).1 = false ∧
    usub32 5 (NonblockingDelayer.init.is_expired_when_delay 3 (2 ^ 32 - 1)).2.lastUpdate ≥ 3 := by
  constructor
  · rfl
  · decide

/-- C1 (amended): the elapsed check returns false and records `now` on
any call that finds the baseline equal to the sentinel `ULONG_MAX`
(in particular the very first call, since the constructor sets the
baseline to `ULONG_MAX`); on a call that finds a non-sentinel baseline
it returns true and resets the baseline to `now` iff
`usub32 now baseline ≥ ms`, and otherwise returns false leaving the
state unchanged. (If a call records `now = ULONG_MAX` as baseline, the
next call is treated as a first call again.) -/
theorem C1_theorem (s : NonblockingDelayer) (ms now : Nat) :
    (s.lastUpdate = ULONG_MAX →
      s.is_expired_when_delay ms now = (false, ⟨now⟩)) ∧
    (s.lastUpdate ≠ ULONG_MAX →
      (usub32 now s.lastUpdate ≥ ms →
        s.is_expired_when_delay ms now = (true, ⟨now⟩)) ∧
      (usub32 now s.lastUpdate < ms →
        s.is_expired_when_delay ms now = (false, s))) := by
  unfold NonblockingDelayer.is_expired_when_delay
  refine ⟨fun h => ?_, fun h => ⟨fun hge => ?_, fun hlt => ?_⟩⟩
  · simp [h]
  · simp [h, hge]
  · simp [h, hlt, Nat.not_le.mpr hlt]

/-- C1 witness: the timer armed with baseline 5 fires at time 20 with
interval 3, and does not fire at time 7. -/
theorem C1_witness :
    NonblockingDelayer.is_expired_when_delay ⟨5⟩ 3 20 = (true, ⟨20⟩) ∧
    NonblockingDelayer.is_expired_when_delay ⟨5⟩ 3 7 = (false, ⟨5⟩) :=
  ⟨((C1_theorem ⟨5⟩ 3 20).2 (by decide)).1 (by decide),
   ((C1_theorem ⟨5⟩ 3 7).2 (by decide)).2 (by decide)⟩

/-- Environment inputs consumed by `Websocket_manager::connect_mqtt`:
the MQTT client's current session state (`client.connected()`), the WiFi
link state (`WiFi.status() == WL_CONNECTED`, read through
`isWiFiConnected`), and the outcome of the broker handshake
`client.connect("ESP32Client", user, password)` were it attempted. -/
structure MqttEnv where
  mqttConnected : Bool
  wifiConnected : Bool
  handshakeOk : Bool
deriving DecidableEq

/-- Observable outcome of `Websocket_manager::connect_mqtt`: the returned
`bool`, whether `client.connect(...)` (the broker handshake) was invoked,
and whether `publish_mqtt_discovery()` ran. -/
structure ConnectResult where
  ok : Bool
  handshakeAttempted : Bool
  discoveryPublished : Bool
deriving DecidableEq

/-- `Websocket_manager::connect_mqtt` (newest revision,
`src/unnamed/part_000`): return true at once if `client.connected()`;
else fail fast if WiFi is not connected; else attempt the handshake,
publishing the discovery messages and returning true on success, and
returning false (after logging `client.state()`) on failure. -/
def Websocket_manager.connect_mqtt (env : MqttEnv) : ConnectResult :=
  if env.mqttConnected then
    ⟨true, false, false⟩
  else if !env.wifiConnected then
    ⟨false, false, false⟩
  else if env.handshakeOk then
    ⟨true, true, true⟩
  else
    ⟨false, true, false⟩

/-- One MQTT data publish performed by `mqtt_push_imple`: the topic and
the numeric payload. The payload string produced by
`dtostrf(value, 1, decimals, buf)` is abstracted as the exact value
together with the number of fraction digits requested. -/
structure PublishMsg where
  topic : String
  value : ℚ
  decimals : Nat
deriving DecidableEq

/-- Environment inputs consumed by one `mqtt_push_imple` run: the
outcome of `reconnectWiFi()` (true iff WiFi ends up connected), the MQTT
session state, the handshake outcome were it attempted, the DHT22
temperature/humidity transducer values, and the ZE08 frame availability
(as for `Sensor_ZE08_CH2O.read`). -/
structure PushEnv where
  wifiOk : Bool
  mqttConnected : Bool
  handshakeOk : Bool
  temperature : FloatVal
  humidity : FloatVal
  wzFrame : Option Nat
deriving DecidableEq

/-- `Websocket_manager::mqtt_push_imple` (newest revision): abort if
`reconnectWiFi()` fails; if the client is not connected, abort unless
`connect_mqtt()` succeeds (run with WiFi up, since `reconnectWiFi`
just succeeded); then read the DHT22, publishing temperature and
humidity each only when not NaN (2 fraction digits), and read the ZE08,
publishing the mass concentration when the read succeeded (5 fraction
digits). The result lists the data publishes in order. -/
def Websocket_manager.mqtt_push_imple (env : PushEnv) : List PublishMsg :=
  if !env.wifiOk then
    []
  else if !env.mqttConnected &&
      !(Websocket_manager.connect_mqtt ⟨env.mqttConnected, true, env.handshakeOk⟩).ok then
    []
  else
    (if env.temperature.isnan then [] else
      [⟨"homeassistant/sensor/dht22/temperature", env.temperature.toRat, 2⟩]) ++
    (if env.humidity.isnan then [] else
      [⟨"homeassistant/sensor/dht22/humidity", env.humidity.toRat, 2⟩]) ++
    (let ch2o := Sensor_ZE08_CH2O.read env.wzFrame
     if ch2o.success then
      [⟨"homeassistant/sensor/ze08_ch2o/state", ch2o.mgm3, 5⟩]
     else [])

/-- `Websocket_manager::mqtt_push`: run `mqtt_push_imple` iff the 7000 ms
interval timer fires. Returns the publishes of this tick and the updated
timer state. -/
def Websocket_manager.mqtt_push (s : NonblockingDelayer) (now : Nat) (env : PushEnv) :
    List PublishMsg × NonblockingDelayer :=
  let r := s.is_expired_when_delay 7000 now
  if r.1 then (Websocket_manager.mqtt_push_imple env, r.2) else ([], r.2)

/-- Topics of a publish list. -/
def publishTopics (msgs : List PublishMsg) : List String := msgs.map PublishMsg.topic

/-- WebSocket frame opcode: `WS_TEXT` or anything else. -/
inductive Opcode where
  | text : Opcode
  | binary : Opcode
deriving DecidableEq

/-- The `AwsFrameInfo` fields inspected by the handler. -/
structure FrameInfo where
  final : Bool
  index : Nat
  len : Nat
  opcode : Opcode
deriving DecidableEq

/-- The request fields the handler looks up in the parsed JSON document:
`doc["from"]`, `doc["to"]`, `doc["id"]`, `doc["type"]`. A field is `none`
when absent (or not of the expected JSON type, in which case the
ArduinoJson `| ""` default also applies). -/
structure JsonDoc where
  fromField : Option String
  toField : Option String
  idField : Option Int
  typeField : Option String
deriving DecidableEq

/-- A JSON response built by the handler, with its fields in the order
the code inserts them. -/
inductive Response where
  | humTemp (fromS toS : String) (id : Option Int) (typeS : String)
      (temperature humidity : FloatVal) : Response
  | ch2o (fromS toS : String) (id : Option Int) (typeS : String)
      (success : Bool) (ppb : Nat) (mgm3 : ℚ) : Response
deriving DecidableEq

/-- The `id` field of a response. -/
def Response.id : Response → Option Int
  | .humTemp _ _ i _ _ _ => i
  | .ch2o _ _ i _ _ _ _ => i

/-- Environment inputs consumed by one `handle_websocket_message` call:
whether `client->canSend()`, the result of `deserializeJson` on the frame
data (`none` on parse error), the DHT22 transducer values behind
`dht22->get_temperature_humidity()`, and the ZE08 frame availability
behind `ze08->read()`. -/
structure WsEnv where
  canSend : Bool
  parse : Option JsonDoc
  temperature : FloatVal
  humidity : FloatVal
  wzFrame : Option Nat
deriving DecidableEq

/-- Observable outcome of one `handle_websocket_message` call: the
response frame sent via `ws.text(client->id(), ...)` (destination
connection id and payload), and whether each sensor facade was read. -/
structure HandlerResult where
  response : Option (Nat × Response)
  dhtRead : Bool
  ze08Read : Bool
deriving DecidableEq

/-- `Websocket_manager::handle_websocket_message` (newest revision,
`src/unnamed/part_000`): return with no effect if the client cannot send;
process only a single complete final text frame; drop the frame on JSON
parse error; require `doc["from"] | ""` to equal `"AI_server"`; dispatch
on `doc["type"] | ""`, reading the matching sensor facade and sending one
response (echoing `doc["id"]`) back to `client->id()`; drop everything
else silently. (`clientId` is `client->id()`; the null-terminator
truncation only affects the parse outcome, which the environment
supplies.) -/
def Websocket_manager.handle_websocket_message
    (env : WsEnv) (clientId : Nat) (info : FrameInfo) (len : Nat) : HandlerResult :=
  if !env.canSend then
    ⟨none, false, false⟩
  else if info.final ∧ info.index = 0 ∧ info.len = len ∧ info.opcode = Opcode.text then
    match env.parse with
    | none => ⟨none, false, false⟩
    | some doc =>
      if doc.fromField.getD "" = "AI_server" then
        if doc.typeField.getD "" = "humidity_temperature" then
          ⟨some (clientId,
             .humTemp "esp32_sensors" "AI_server" doc.idField "humidity_temperature"
               env.temperature env.humidity),
           true, false⟩
        else if doc.typeField.getD "" = "ch2o" then
          let res := Sensor_ZE08_CH2O.read env.wzFrame
          ⟨some (clientId,
             .ch2o "esp32_sensors" "AI_server" doc.idField "ch2o"
               res.success res.ppb res.mgm3),
           false, true⟩
        else ⟨none, false, false⟩
      else ⟨none, false, false⟩
  else ⟨none, false, false⟩

/-- C2: for a well-formed final text frame on a sendable connection whose
JSON parses with `from = "AI_server"` and `type = "humidity_temperature"`,
the handler sends exactly one response, to the same connection, and that
response's `id` field is the request's `id` field unchanged. -/
theorem C2_theorem (env : WsEnv) (clientId : Nat) (info : FrameInfo) (len : Nat) (doc : JsonDoc)
    (hsend : env.canSend = true) (hfin : info.final = true) (hidx : info.index = 0)
    (hlen : info.len = len) (hop : info.opcode = Opcode.text)
    (hparse : env.parse = some doc) (hfrom : doc.fromField = some "AI_server")
    (htype : doc.typeField = some "humidity_temperature") :
    (Websocket_manager.handle_websocket_message env clientId info len).response =
      some (clientId,
        Response.humTemp "esp32_sensors" "AI_server" doc.idField "humidity_temperature"
          env.temperature env.humidity) ∧
    (Response.humTemp "esp32_sensors" "AI_server" doc.idField "humidity_temperature"
        env.temperature env.humidity).id = doc.idField := by
  refine ⟨?_, rfl⟩
  simp [Websocket_manager.handle_websocket_message, hsend, hfin, hidx, hlen, hop, hparse,
    hfrom, htype]

/-- C2 witness: a concrete `humidity_temperature` request with id 42 on
connection 3 is answered on connection 3 with id 42. -/
theorem C2_witness :
    (Websocket_manager.handle_websocket_message
        ⟨true, some ⟨some "AI_server", some "esp32_sensors", some 42, some "humidity_temperature"⟩,
         FloatVal.val 21, FloatVal.val 48, none⟩ 3 ⟨true, 0, 64, Opcode.text⟩ 64).response =
      some (3, Response.humTemp "esp32_sensors" "AI_server" (some 42) "humidity_temperature"
        (FloatVal.val 21) (FloatVal.val 48)) ∧
    (Response.humTemp "esp32_sensors" "AI_server" (some 42) "humidity_temperature"
        (FloatVal.val 21) (FloatVal.val 48)).id = some 42 :=
  C2_theorem
    ⟨true, some ⟨some "AI_server", some "esp32_sensors", some 42, some "humidity_temperature"⟩,
     FloatVal.val 21, FloatVal.val 48, none⟩ 3 ⟨true, 0, 64, Opcode.text⟩ 64
    ⟨some "AI_server", some "esp32_sensors", some 42, some "humidity_temperature"⟩
    rfl rfl rfl rfl rfl rfl rfl rfl

/-- C3 counterexample: with the network link down but the MQTT client
already reporting a live session, `connect_mqtt` returns success (not
failure) — the `client.connected()` fast path runs before the WiFi
precondition check. -/
theorem C3_counterexample :
    (Websocket_manager.connect_mqtt ⟨true, false, false⟩).ok = true ∧
    (⟨true, false, false⟩ : MqttEnv).wifiConnected = false := by
  decide

/-- C3 (amended): when the network link is not connected and the MQTT
client does not already report a live session, `connect_mqtt` returns
failure without attempting a broker connect handshake and without
publishing discovery; if `client.connected()` already reports true, it
instead returns success immediately (still without a handshake),
regardless of the link state. -/
theorem C3_theorem (env : MqttEnv)
    (hw : env.wifiConnected = false) (hs : env.mqttConnected = false) :
    Websocket_manager.connect_mqtt env = ⟨false, false, false⟩ := by
  obtain ⟨mc, w, k⟩ := env
  dsimp only at hw hs
  subst hw; subst hs
  rfl

/-- C3 witness: network down, session absent, handshake would succeed —
`connect_mqtt` still fails fast with no handshake attempt. -/
theorem C3_witness :
    Websocket_manager.connect_mqtt ⟨false, false, true⟩ = ⟨false, false, false⟩ :=
  C3_theorem ⟨false, false, true⟩ rfl rfl

/-- C4: in a push cycle that reaches the metric stage (WiFi reconnect
succeeded and the MQTT session is live or the handshake succeeds), the
temperature topic is published iff the temperature reading is not NaN and
the humidity topic is published iff the humidity reading is not NaN, each
independently of the other reading and of the gas sensor. -/
theorem C4_theorem (env : PushEnv) (hw : env.wifiOk = true)
    (hc : env.mqttConnected = true ∨ env.handshakeOk = true) :
    (("homeassistant/sensor/dht22/temperature" ∈
        publishTopics (Websocket_manager.mqtt_push_imple env)) ↔
      env.temperature.isnan = false) ∧
    (("homeassistant/sensor/dht22/humidity" ∈
        publishTopics (Websocket_manager.mqtt_push_imple env)) ↔
      env.humidity.isnan = false) := by
  obtain ⟨w, mc, k, t, hmd, wz⟩ := env
  dsimp only at hw hc ⊢
  subst hw
  cases mc <;> cases k <;> cases t <;> cases hmd <;> cases wz <;>
    simp_all [Websocket_manager.mqtt_push_imple, Websocket_manager.connect_mqtt,
      publishTopics, Sensor_ZE08_CH2O.read, FloatVal.isnan]

/-- C4 witness: temperature 22.5 and humidity NaN — exactly the
temperature topic of the two DHT22 topics is published. -/
theorem C4_witness :
    (("homeassistant/sensor/dht22/temperature" ∈
        publishTopics (Websocket_manager.mqtt_push_imple
          ⟨true, true, false, FloatVal.val (22.5 : ℚ), FloatVal.nan, none⟩)) ↔
      (FloatVal.val (22.5 : ℚ)).isnan = false) ∧
    (("homeassistant/sensor/dht22/humidity" ∈
        publishTopics (Websocket_manager.mqtt_push_imple
          ⟨true, true, false, FloatVal.val (22.5 : ℚ), FloatVal.nan, none⟩)) ↔
      FloatVal.nan.isnan = false) :=
  C4_theorem ⟨true, true, false, FloatVal.val (22.5 : ℚ), FloatVal.nan, none⟩ rfl (Or.inl rfl)

/-- C5: the concrete `ch2o` request with id 7, served while the gas
facade sees a frame with 120 ppb, is answered on the same connection with
from `esp32_sensors`, to `AI_server`, id 7, type `ch2o`, success true,
ppb 120 and mgm3 0.15; and the facade read itself returns
(true, 120, 0.15). -/
theorem C5_theorem :
    (Websocket_manager.handle_websocket_message
        ⟨true, some ⟨some "AI_server", none, some 7, some "ch2o"⟩,
         FloatVal.val 0, FloatVal.val 0, some 120⟩ 1 ⟨true, 0, 40, Opcode.text⟩ 40).response =
      some (1, Response.ch2o "esp32_sensors" "AI_server" (some 7) "ch2o" true 120 (0.15 : ℚ)) ∧
    Sensor_ZE08_CH2O.read (some 120) = ⟨true, 120, (0.15 : ℚ)⟩ := by
  have h : ("ch2o" : String) ≠ "humidity_temperature" := by decide
  refine ⟨?_, ?_⟩ <;>
    norm_num [Websocket_manager.handle_websocket_message, Sensor_ZE08_CH2O.read,
      Sensor_ZE08_CH2O.ppb_to_mgm3, Ch2oResult.mk.injEq, h]

/-- C6: the gas facade's conversion is exact — whenever a frame with raw
reading `ppb` is available, both `read` and `readUntil` return mass
concentration `ppb * 0.00125`. -/
theorem C6_theorem (ppb timeout : Nat) :
    (Sensor_ZE08_CH2O.read (some ppb)).mgm3 = ppb * (0.00125 : ℚ) ∧
    (Sensor_ZE08_CH2O.readUntil (some ppb) timeout).mgm3 = ppb * (0.00125 : ℚ) :=
  ⟨rfl, rfl⟩

/-- C7: a frame whose parsed JSON has `from` absent or different from
`"AI_server"` (the code reads `doc["from"] | ""`) produces no response
and triggers no sensor read. -/
theorem C7_theorem (env : WsEnv) (clientId : Nat) (info : FrameInfo) (len : Nat) (doc : JsonDoc)
    (hparse : env.parse = some doc)
    (hfrom : doc.fromField.getD "" ≠ "AI_server") :
    Websocket_manager.handle_websocket_message env clientId info len = ⟨none, false, false⟩ := by
  unfold Websocket_manager.handle_websocket_message
  cases hc : env.canSend
  · simp
  · simp only [hc]
    by_cases hf : info.final ∧ info.index = 0 ∧ info.len = len ∧ info.opcode = Opcode.text
    · simp [hf, hparse, hfrom]
    · simp [hf]

/-- C7 witness: a well-formed frame from `"intruder"` is dropped with no
response and no sensor read. -/
theorem C7_witness :
    Websocket_manager.handle_websocket_message
      ⟨true, some ⟨some "intruder", some "esp32_sensors", some 1, some "ch2o"⟩,
       FloatVal.val 20, FloatVal.val 50, some 10⟩ 2 ⟨true, 0, 30, Opcode.text⟩ 30 =
      ⟨none, false, false⟩ :=
  C7_theorem _ 2 _ 30 _ rfl (by decide)

/-- C8: when the originating connection cannot accept writes, the handler
returns immediately: no response is built or sent and neither sensor
facade is read, whatever the frame and request contain. -/
theorem C8_theorem (env : WsEnv) (clientId : Nat) (info : FrameInfo) (len : Nat)
    (h : env.canSend = false) :
    Websocket_manager.handle_websocket_message env clientId info len = ⟨none, false, false⟩ := by
  simp [Websocket_manager.handle_websocket_message, h]

/-- C8 witness: a well-formed `ch2o` request from `AI_server` on a
non-sendable connection is dropped with no response and no sensor read. -/
theorem C8_witness :
    Websocket_manager.handle_websocket_message
      ⟨false, some ⟨some "AI_server", some "esp32_sensors", some 5, some "ch2o"⟩,
       FloatVal.val 20, FloatVal.val 50, some 10⟩ 2 ⟨true, 0, 30, Opcode.text⟩ 30 =
      ⟨none, false, false⟩ :=
  C8_theorem _ 2 _ 30 rfl

/-- C9: a push cycle is atomic with respect to connectivity failure — if
the WiFi reconnect fails, or the session is absent and the broker
handshake fails, `mqtt_push_imple` publishes nothing (so the tick
publishes nothing whatever the timer says); and after a tick leaves the
timer baseline at time `now`, a tick at any time `now2` less than one
7000 ms interval later publishes nothing, whatever its environment — no
catch-up or backlog. -/
theorem C9_theorem (s : NonblockingDelayer) (now now2 : Nat) (env env2 : PushEnv)
    (habort : env.wifiOk = false ∨ (env.mqttConnected = false ∧ env.handshakeOk = false))
    (hwin : usub32 now2 now < 7000) :
    Websocket_manager.mqtt_push_imple env = [] ∧
    (Websocket_manager.mqtt_push s now env).1 = [] ∧
    (Websocket_manager.mqtt_push ⟨now⟩ now2 env2).1 = [] := by
  have himple : Websocket_manager.mqtt_push_imple env = [] := by
    obtain ⟨w, mc, k, t, hmd, wz⟩ := env
    dsimp only at habort
    rcases habort with h | ⟨h1, h2⟩
    · subst h
      simp [Websocket_manager.mqtt_push_imple]
    · subst h1; subst h2
      cases w <;>
        simp [Websocket_manager.mqtt_push_imple, Websocket_manager.connect_mqtt]
  refine ⟨himple, ?_, ?_⟩
  · cases hfire : (s.is_expired_when_delay 7000 now).1 <;>
      simp [Websocket_manager.mqtt_push, hfire, himple]
  · by_cases hn : now = ULONG_MAX <;>
      simp [Websocket_manager.mqtt_push, NonblockingDelayer.is_expired_when_delay, hn,
        Nat.not_le.mpr hwin]

/-- C9 witness: a push with WiFi down publishes nothing at any tick; and
after a fire leaving the baseline at 8000 ms, the tick at 9000 ms
publishes nothing even with full connectivity and valid readings. -/
theorem C9_witness :
    Websocket_manager.mqtt_push_imple
      ⟨false, true, true, FloatVal.val 20, FloatVal.val 50, some 10⟩ = [] ∧
    (Websocket_manager.mqtt_push ⟨100⟩ 8000
      ⟨false, true, true, FloatVal.val 20, FloatVal.val 50, some 10⟩).1 = [] ∧
    (Websocket_manager.mqtt_push ⟨8000⟩ 9000
      ⟨true, true, true, FloatVal.val 20, FloatVal.val 50, some 10⟩).1 = [] :=
  C9_theorem ⟨100⟩ 8000 9000
    ⟨false, true, true, FloatVal.val 20, FloatVal.val 50, some 10⟩
    ⟨true, true, true, FloatVal.val 20, FloatVal.val 50, some 10⟩
    (Or.inl rfl) (by decide)

/-- C10: the handler never inspects the request's `to` field — two
requests identical except for `to` yield identical handler outcomes
(response, destination, and sensor reads); and a well-formed frame from
`AI_server` with a recognized type is answered whatever `to` contains. -/
theorem C10_theorem (cs : Bool) (t hmd : FloatVal) (wz : Option Nat) (clientId : Nat)
    (info : FrameInfo) (len : Nat) (f ty : Option String) (i : Option Int)
    (to1 to2 : Option String) :
    Websocket_manager.handle_websocket_message ⟨cs, some ⟨f, to1, i, ty⟩, t, hmd, wz⟩
        clientId info len =
      Websocket_manager.handle_websocket_message ⟨cs, some ⟨f, to2, i, ty⟩, t, hmd, wz⟩
        clientId info len ∧
    (cs = true → info.final = true → info.index = 0 → info.len = len →
      info.opcode = Opcode.text → f = some "AI_server" →
      (ty = some "humidity_temperature" ∨ ty = some "ch2o") →
      (Websocket_manager.handle_websocket_message ⟨cs, some ⟨f, to1, i, ty⟩, t, hmd, wz⟩
          clientId info len).response ≠ none) := by
  constructor
  · rfl
  · intro hcs hfin hidx hlen hop hf hty
    subst hcs; subst hf
    rcases hty with hty | hty <;> subst hty <;>
      simp [Websocket_manager.handle_websocket_message, hfin, hidx, hlen, hop]

/-- C10 witness: a `ch2o` request from `AI_server` whose `to` field is an
arbitrary string is still answered. -/
theorem C10_witness :
    (Websocket_manager.handle_websocket_message
        ⟨true, some ⟨some "AI_server", some "anything", some 9, some "ch2o"⟩,
         FloatVal.val 20, FloatVal.val 50, some 10⟩ 4 ⟨true, 0, 30, Opcode.text⟩ 30).response ≠
      none :=
  (C10_theorem true (FloatVal.val 20) (FloatVal.val 50) (some 10) 4 ⟨true, 0, 30, Opcode.text⟩ 30
      (some "AI_server") (some "ch2o") (some 9) (some "anything") none).2
    rfl rfl rfl rfl rfl rfl (Or.inr rfl)
